import Mathlib

/-!
# Healix — verification of the symptom-intake and prediction pipeline

Shallow embedding of the core of the Healix repository:

* `src/helper.py` — the lightweight fallback symptom extractor
  (`parse_symptoms_from_text`, `COMMON_SYMPTOMS`);
* `nlp.py` — the rich, lemma-overlap symptom extractor
  (`extract_symptoms_from_text`, `symptoms_list`, `clean_text`), with the
  external spacy lemmatizer abstracted as an oracle `L : String → Finset String`;
* `chatbot.py` — CNN vectorization (`_vectorize_symptoms_for_cnn`),
  the sequence-adapter wrapper (`_run_cnn_prediction`), prediction
  reconciliation and the demographic slot-filling conversation flow
  (`_handle_chat_message`), with side effects (report persistence,
  scaffold creation, adapter invocation) reified as data.

Machine floats of the source are modelled as exact rationals; Python's
`round(x, 1)` and `%.2f` formatting are modelled by explicit
round-half-to-even functions on `ℚ`.

All string operations are implemented structurally on `List Char` so that
every definition evaluates inside the kernel (the inputs relevant to the
source are ASCII).
-/

namespace Healix

/-! ## Generic string helpers (case, substring search, sorting, whitespace) -/

/-- ASCII lowercasing of one character, as Python's `str.lower` acts on the
ASCII inputs used throughout the source. -/
def charToLower (c : Char) : Char :=
  if 'A' ≤ c && c ≤ 'Z' then Char.ofNat (c.toNat + 32) else c

/-- Python's `str.lower` (ASCII). -/
def strLower (s : String) : String :=
  String.mk (s.toList.map charToLower)

/-- `p` occurs at the head of `t` (character lists). -/
def occursAtHead : List Char → List Char → Bool
  | [], _ => true
  | _ :: _, [] => false
  | c :: cs, d :: ds => c = d && occursAtHead cs ds

/-- `p` occurs somewhere inside `t` (character lists); models Python's
`p in t` substring test. -/
def occursIn (p : List Char) : List Char → Bool
  | [] => occursAtHead p []
  | d :: ds => occursAtHead p (d :: ds) || occursIn p ds

/-- Python's `p in t` on strings. -/
def strContainsSub (t p : String) : Bool :=
  occursIn p.toList t.toList

/-- Lexicographic (code-point) order on character lists, as Python compares
strings. -/
def charListLe : List Char → List Char → Bool
  | [], _ => true
  | _ :: _, [] => false
  | a :: as, b :: bs => if a = b then charListLe as bs else decide (a < b)

/-- Python's `a <= b` on strings. -/
def strLe (a b : String) : Bool :=
  charListLe a.toList b.toList

/-- Insert a string into a (sorted) list, keeping lexicographic order;
used to model Python's `sorted`. -/
def insertSorted (s : String) : List String → List String
  | [] => [s]
  | t :: ts => if strLe s t then s :: t :: ts else t :: insertSorted s ts

/-- Python's `sorted` on a list of strings (insertion sort). -/
def sortStrings : List String → List String
  | [] => []
  | s :: ss => insertSorted s (sortStrings ss)

/-- An ASCII whitespace character, as matched by Python's `\s` and stripped
by `str.strip`. -/
def isWs (c : Char) : Bool :=
  c = ' ' || c = '\t' || c = '\n' || c = '\r' || c = '\x0b' || c = '\x0c'

/-- Drop leading and trailing whitespace (Python's `str.strip`). -/
def stripChars (l : List Char) : List Char :=
  ((l.dropWhile isWs).reverse.dropWhile isWs).reverse

/-- Python's `str.strip`. -/
def strStrip (s : String) : String :=
  String.mk (stripChars s.toList)

/-- Split a character list at every character satisfying `p`, keeping empty
fragments; models `re.split` on a single-character class. -/
def splitChars (p : Char → Bool) : List Char → List (List Char)
  | [] => [[]]
  | c :: cs =>
    if p c then [] :: splitChars p cs
    else
      match splitChars p cs with
      | [] => [[c]]
      | g :: gs => (c :: g) :: gs

/-- Python's `", ".join` / `" ".join` (string intercalation). -/
def joinWith (sep : String) : List String → String
  | [] => ""
  | [s] => s
  | s :: rest => s ++ sep ++ joinWith sep rest

/-! ## `src/helper.py`: the fallback extractor -/

/-- `COMMON_SYMPTOMS` from `src/helper.py` — the compact list of common
symptoms matched without heavy NLP dependencies (a Python `set`; listed
here in source order, only membership and sorted output are used). -/
def COMMON_SYMPTOMS : List String :=
  ["fever", "cough", "headache", "fatigue", "sore throat", "nausea",
   "vomiting", "diarrhea", "chills", "shortness of breath", "chest pain",
   "dizziness", "runny nose", "muscle pain", "joint pain", "rash"]

/-- Split a string at every `,` or `.`, keeping empty fragments; models
`re.split(r"[,.]", user_text)`. -/
def splitCommaPeriod (s : String) : List String :=
  (splitChars (fun c => c = ',' || c = '.') s.toList).map String.mk

/-- `parse_symptoms_from_text` from `src/helper.py`: space-pad the
lowercased text, collect the common symptoms occurring as substrings
(returned sorted, as Python's `sorted(found)`); if none occur, split the
raw text on commas/periods, strip fragments, drop empties, and return at
most the first 3. -/
def parseSymptomsFromText (userText : String) : List String :=
  let text := " " ++ strLower userText ++ " "
  let found := COMMON_SYMPTOMS.filter (fun symptom => strContainsSub text symptom)
  if found ≠ [] then
    sortStrings found
  else
    (((splitCommaPeriod userText).map strStrip).filter (fun chunk => chunk ≠ "")).take 3

example : parseSymptomsFromText "I have a fever and a bad cough." = ["cough", "fever"] := by decide

example : parseSymptomsFromText "..." = [] := by decide

example : parseSymptomsFromText "weird thing, another thing. third, fourth" =
    ["weird thing", "another thing", "third"] := by decide

/-! ## `nlp.py`: the rich, lemma-overlap extractor

The spacy pipeline (`nlp = spacy.load(...)`) together with
`token_lemma_set` is an external linguistic capability; it is abstracted
as an oracle `L : String → Finset String` mapping a (cleaned) text to its
set of content-word lemmas.  `clean_text` itself is pure string code and
is embedded directly. -/

/-- A lowercase-alphanumeric-or-whitespace character (the class kept by
`clean_text`'s first substitution `[^a-z0-9\s]`). -/
def isCleanKeep (c : Char) : Bool :=
  ('a' ≤ c && c ≤ 'z') || ('0' ≤ c && c ≤ '9') || isWs c

/-- Collapse every whitespace run into a single space
(`re.sub(r'\s+', ' ', text)`); the flag records whether the previous
character was whitespace. -/
def collapseWsAux : Bool → List Char → List Char
  | _, [] => []
  | prevWs, c :: cs =>
    if isWs c then
      if prevWs then collapseWsAux true cs
      else ' ' :: collapseWsAux true cs
    else c :: collapseWsAux false cs

/-- `clean_text` from `nlp.py`: lowercase, replace every character outside
`[a-z0-9\s]` by a space, collapse whitespace runs, strip. -/
def cleanText (text : String) : String :=
  let lowered := (strLower text).toList
  let replaced := lowered.map (fun c => if isCleanKeep c then c else ' ')
  String.mk (stripChars (collapseWsAux false replaced))

example : cleanText "  I have, a FEVER!!  and   chills. " = "i have a fever and chills" := by decide

/-- The lemma set of one vocabulary entry, as `symptom_meta[s]["lemmas"]`
is built in `nlp.py`: the oracle applied to the cleaned label. -/
def symptomLemmas (L : String → Finset String) (s : String) : Finset String :=
  L (cleanText s)

/-- One iteration of the loop body of `extract_symptoms_from_text`: the
ratio `len(overlap) / len(meta["lemmas"])` raises `ZeroDivisionError`
when the label's lemma set is empty; otherwise the label passes the gate
when `ratio >= threshold or len(overlap) >= 2`. -/
def symptomGate (L : String → Finset String) (threshold : ℚ)
    (sentenceLemmas : Finset String) (symp : String) : Except String Bool :=
  let lemmas := symptomLemmas L symp
  if lemmas.card = 0 then Except.error "ZeroDivisionError"
  else
    let overlap := sentenceLemmas ∩ lemmas
    Except.ok (decide ((overlap.card : ℚ) / (lemmas.card : ℚ) ≥ threshold) ||
               decide (overlap.card ≥ 2))

/-- The `for symp, meta in symptom_meta.items()` loop of
`extract_symptoms_from_text`: accumulate the labels passing the gate, in
vocabulary order, propagating the first exception. -/
def extractLoop (L : String → Finset String) (threshold : ℚ)
    (sentenceLemmas : Finset String) :
    List String → List String → Except String (List String)
  | found, [] => Except.ok found
  | found, symp :: rest =>
    match symptomGate L threshold sentenceLemmas symp with
    | Except.error e => Except.error e
    | Except.ok hit =>
      extractLoop L threshold sentenceLemmas (if hit then found ++ [symp] else found) rest

/-- `extract_symptoms_from_text` from `nlp.py` (threshold defaults to
`0.55` at the call site in `chatbot.py`): lemmatize the cleaned sentence,
gate every vocabulary label, and deduplicate the hits
(`list(set(found))`; the Python set order is unspecified, so the result
is meaningful up to membership).  The `Except` layer records the
`ZeroDivisionError` the source would raise on a label with an empty
lemma set. -/
def extractSymptomsFromTextE (L : String → Finset String) (vocab : List String)
    (threshold : ℚ) (sentence : String) : Except String (List String) :=
  match extractLoop L threshold (L (cleanText sentence)) [] vocab with
  | Except.error e => Except.error e
  | Except.ok found => Except.ok found.dedup

/-- The boolean gate (no exception), used to state what
`extract_symptoms_from_text` returns when every lemma set is nonempty. -/
def symptomGateB (L : String → Finset String) (threshold : ℚ)
    (sentenceLemmas : Finset String) (symp : String) : Bool :=
  let lemmas := symptomLemmas L symp
  let overlap := sentenceLemmas ∩ lemmas
  decide ((overlap.card : ℚ) / (lemmas.card : ℚ) ≥ threshold) || decide (overlap.card ≥ 2)

/-! ## Python rounding and float formatting on exact rationals -/

/-- Round the fraction `n / d` (for `d > 0`) to the nearest integer, ties
to even (IEEE / Python `round`); phrased on `ℤ` so it evaluates in the
kernel. -/
def roundHalfEvenFrac (n d : ℤ) : ℤ :=
  let q := Int.fdiv n d
  let r := n - q * d
  if 2 * r < d then q
  else if d < 2 * r then q + 1
  else if q % 2 = 0 then q else q + 1

example : roundHalfEvenFrac 8333 100 = 83 := by decide
example : roundHalfEvenFrac 25 10 = 2 := by decide
example : roundHalfEvenFrac 35 10 = 4 := by decide
example : roundHalfEvenFrac (-25) 10 = -2 := by decide

/-- Python's `round(x, 1)`: round `x * 10` half-to-even, divide by ten. -/
def pyRound1 (x : ℚ) : ℚ :=
  ((roundHalfEvenFrac (10 * x.num) (x.den) : ℤ) : ℚ) / 10

/-- Python's `f"{x:.2f}"` for the confidence values in the reply text
(two decimal places, round half to even). -/
def fmt2 (x : ℚ) : String :=
  let scaled := roundHalfEvenFrac (100 * x.num) (x.den)
  let sign := if scaled < 0 then "-" else ""
  let n := scaled.natAbs
  let ip := n / 100
  let fp := n % 100
  sign ++ toString ip ++ "." ++ (if fp < 10 then "0" else "") ++ toString fp

example : fmt2 (1 : ℚ) = "1.00" := by decide

/-! ## `chatbot.py`: the sequence (CNN) predictor adapter -/

/-- The structured result of `_run_cnn_prediction`: the dict
`{"class_index": ..., "confidence": ..., ["disease": ...]}` (the
`disease` key is present only when the mapping lookup succeeded). -/
structure CnnResult where
  class_index : Nat
  confidence : ℚ
  disease : Option String
deriving DecidableEq

/-- Lookup in the Python dict `{s: i for i, s in enumerate(vocab)}`:
later duplicates overwrite earlier ones, so the map returns the last
index of `s` in `vocab` (or `none`). -/
def indexMapGet : List String → String → Option Nat
  | [], _ => none
  | v :: vs, s =>
    match indexMapGet vs s with
    | some j => some (j + 1)
    | none => if v = s then some 0 else none

/-- The fold of `_vectorize_symptoms_for_cnn`: start from
`np.zeros(len(vocab))` and set slot `index_map[s]` to `1.0` for each
extracted symptom found in the vocabulary. -/
def buildVec (vocab : List String) (extracted : List String) : List ℚ :=
  extracted.foldl
    (fun vec s =>
      match indexMapGet vocab s with
      | some idx => vec.set idx 1
      | none => vec)
    (List.replicate vocab.length 0)

/-- `_vectorize_symptoms_for_cnn` from `chatbot.py`: `None` when the
extracted list is empty or the rich vocabulary (`ADV_SYMPTOM_VOCAB`) is
unavailable; otherwise the one-hot vector over the vocabulary.  (The
final numpy `reshape to (1, n, 1)` is shape bookkeeping with the same
payload and is not modelled separately.) -/
def vectorizeSymptomsForCnn (advVocab : Option (List String))
    (extractedSymptoms : List String) : Option (List ℚ) :=
  if extractedSymptoms = [] then none
  else
    match advVocab with
    | none => none
    | some vocab => some (buildVec vocab extractedSymptoms)

/-- `np.argmax` over a probability row: index of the first maximal entry;
`none` on an empty row (numpy raises there, caught by the adapter). -/
def argmaxAux : List ℚ → Nat → Nat → ℚ → Nat
  | [], _, bi, _ => bi
  | x :: xs, i, bi, bv =>
    if bv < x then argmaxAux xs (i + 1) i x else argmaxAux xs (i + 1) bi bv

/-- First-maximum argmax, `none` for the empty list. -/
def argmaxIdx : List ℚ → Option Nat
  | [] => none
  | x :: xs => some (argmaxAux xs 1 0 x)

example : argmaxIdx [0, 2, 2, 1] = some 1 := by decide

/-- The `disease_mapping.csv` lookup: first row whose `Encoded` column
equals the class index, reading its `Disease` column; `none` when the
mapping table is unavailable or has no match. -/
def cnnDiseaseLookup (mapping : Option (List (Nat × String))) (classIndex : Nat) :
    Option String :=
  match mapping with
  | none => none
  | some rows => (rows.find? (fun row => row.1 = classIndex)).map (fun row => row.2)

/-- `_run_cnn_prediction` from `chatbot.py`: `None` when the CNN model is
unavailable or the extracted list is empty or vectorization yields no
vector; otherwise run the model oracle on the one-hot vector, take the
arg-max index and its probability, and attach the optional disease
label.  All internal failures (including numpy's argmax on an empty row)
are caught and become `None`. -/
def runCnnPrediction (cnnModel : Option (List ℚ → List ℚ))
    (advVocab : Option (List String)) (mapping : Option (List (Nat × String)))
    (extractedSymptoms : List String) : Option CnnResult :=
  match cnnModel with
  | none => none
  | some model =>
    if extractedSymptoms = [] then none
    else
      match vectorizeSymptomsForCnn advVocab extractedSymptoms with
      | none => none
      | some vec =>
        let probs := model vec
        match argmaxIdx probs with
        | none => none
        | some classIndex =>
          some
            { class_index := classIndex
              confidence := probs.getD classIndex 0
              disease := cnnDiseaseLookup mapping classIndex }

/-! ## `chatbot.py`: prediction reconciliation -/

/-- Python dict insertion on an insertion-ordered association list:
an existing key keeps its position and gets the new value, a new key is
appended. -/
def dictInsert (m : List (String × ℚ)) (k : String) (v : ℚ) : List (String × ℚ) :=
  if m.any (fun p => p.1 = k) then
    m.map (fun p => if p.1 = k then (k, v) else p)
  else m ++ [(k, v)]

/-- The label the reconciler uses for the sequence adapter:
`cnn_result.get("disease", f"Class {cnn_result['class_index']} (CNN)")`. -/
def cnnDiseaseLabel (r : CnnResult) : String :=
  match r.disease with
  | some d => d
  | none => "Class " ++ toString r.class_index ++ " (CNN)"

/-- The `predictions_block` construction in `_handle_chat_message`
(`chatbot.py` lines 269–279): insert the stringified classical prediction
at `100.0` when present, then the sequence label (or placeholder) at
`round(confidence * 100.0, 1)` when present. -/
def predictionsBlock (mlPredValue : Option String) (cnnResult : Option CnnResult) :
    List (String × ℚ) :=
  let m : List (String × ℚ) := []
  let m :=
    match mlPredValue with
    | some label => dictInsert m label 100
    | none => m
  match cnnResult with
  | some r => dictInsert m (cnnDiseaseLabel r) (pyRound1 (r.confidence * 100))
  | none => m

/-- The primary-prediction choice in `_handle_chat_message` (lines
349–354): the CNN disease label when present and truthy (nonempty),
else the stringified classical prediction, else `None`. -/
def primaryPrediction (mlPredValue : Option String) (cnnResult : Option CnnResult) :
    Option String :=
  match cnnResult with
  | some r =>
    match r.disease with
    | some d => if d = "" then mlPredValue else some d
    | none => mlPredValue
  | none => mlPredValue

/-- The `reply_parts` list of `_handle_chat_message`: one clause for the
classical model (suggestion or no-reliable-prediction), then an optional
clause for the CNN (disease or class index, with two-decimal
confidence). -/
def replyParts (mlPredValue : Option String) (cnnResult : Option CnnResult) :
    List String :=
  let first :=
    match mlPredValue with
    | some v => "Based on your symptoms, the ML model suggests: " ++ v ++ "."
    | none =>
        "I recorded your symptoms, but the classical ML model could not " ++
        "produce a reliable prediction for this description."
  let rest :=
    match cnnResult with
    | some r =>
      match r.disease with
      | some d =>
        if d = "" then
          ["The CNN model\x27s top prediction index is " ++ toString r.class_index ++
           " (confidence " ++ fmt2 r.confidence ++ ")."]
        else
          ["The CNN model also suggests: " ++ d ++ " (confidence " ++
           fmt2 r.confidence ++ ")."]
      | none =>
        ["The CNN model\x27s top prediction index is " ++ toString r.class_index ++
         " (confidence " ++ fmt2 r.confidence ++ ")."]
    | none => []
  first :: rest

/-! ## `chatbot.py`: conversation state and the message handler

The handler's side effects (creating the report scaffold, appending to the
pseudo-PDF, saving the JSON reports store, invoking extraction and the
predictors) are reified as boolean fields of `Effects`; the nondeterministic
report id and timestamp, the optional models and the optional rich-NLP
capability are passed in as the process environment `Env`. -/

/-- The process-wide `user_info` dict: each demographic key is absent
(`none`) or set to a (possibly empty) string. -/
structure UserInfo where
  name : Option String
  age : Option String
  gender : Option String
deriving DecidableEq

/-- `user_info` at process start: the empty dict. -/
def emptyUserInfo : UserInfo := { name := none, age := none, gender := none }

/-- Python falsiness of `user_info.get(key)`: a missing key gives `None`
(falsy) and an empty string is falsy too. -/
def falsy : Option String → Bool
  | none => true
  | some s => s = ""

/-- One recommended-doctor record of the fixed list in the report. -/
structure Doctor where
  id : String
  name : String
  specialty : String
  experience : String
deriving DecidableEq

/-- The fixed `recommended_doctors` list embedded in every report. -/
def RECOMMENDED_DOCTORS : List Doctor :=
  [{ id := "featured-1", name := "Dr. Ahmed Hassan", specialty := "Cardiologist",
     experience := "12+ years experience" },
   { id := "featured-2", name := "Dr. Fatima Ali", specialty := "Pediatrician",
     experience := "8+ years experience" }]

/-- The fixed disclaimer note of every report. -/
def reportDisclaimer : String :=
  "This report is generated by AI and is not a medical diagnosis. Please consult a licensed physician."

/-- The structured report built for the frontend modal (`chatbot.py`
lines 281–306); `report_id` and `timestamp` come from the environment
(uuid / clock). -/
structure Report where
  report_id : String
  timestamp : String
  patientName : String
  patientAge : String
  patientGender : String
  symptoms : List String
  predictions : List (String × ℚ)
  recommended_doctors : List Doctor
  notes : String
deriving DecidableEq

/-- The frontend-facing JSON body: demographic turns carry only `answer`;
a completed prediction cycle also carries the extracted symptoms, the
primary prediction, the raw CNN confidence and the report envelope. -/
structure ChatResponse where
  answer : String
  symptoms : Option (List String)
  prediction : Option String
  confidence : Option ℚ
  report : Option Report
deriving DecidableEq

/-- The handler's side effects, reified as data. -/
structure Effects where
  scaffoldCreated : Bool
  extractionInvoked : Bool
  predictorsInvoked : Bool
  reportAppended : Bool
  reportsSaved : Bool
deriving DecidableEq

/-- No side effect. -/
def noEffects : Effects :=
  { scaffoldCreated := false, extractionInvoked := false, predictorsInvoked := false,
    reportAppended := false, reportsSaved := false }

/-- The process environment of `chatbot.py`: the optional rich extractor
and vocabulary (`advanced_extract_symptoms`, `ADV_SYMPTOM_VOCAB`), the
classical model (`ml_model.predict` composed with the single-element
unwrap and stringification; `none` models a raised exception), the
optional CNN model oracle, the optional disease-mapping table, and the
fresh report id / timestamp for this turn. -/
structure Env where
  advExtract : Option (String → List String)
  advVocab : Option (List String)
  mlPredict : String → Option String
  cnnModel : Option (List ℚ → List ℚ)
  diseaseMapping : Option (List (Nat × String))
  reportId : String
  timestamp : String

/-- The extraction step of the handler: the rich pipeline when available,
else the lightweight fallback. -/
def extractFor (env : Env) (userText : String) : List String :=
  match env.advExtract with
  | some f => f userText
  | none => parseSymptomsFromText userText

/-- The three fixed demographic prompts and the no-symptoms reply. -/
def promptAge : String := "Please enter your age:"

/-- Prompt returned after the age is stored. -/
def promptGender : String := "Please enter your gender:"

/-- Prompt returned after the gender is stored. -/
def promptSymptoms : String :=
  "Now, please describe at least 3 of your symptoms with their intensity and duration."

/-- Reply returned when no symptoms could be extracted. -/
def elaborateReply : String :=
  "I couldn\x27t reliably extract symptoms from that. Please describe your symptoms with more detail."

/-- The outcome of one call to `_handle_chat_message`: the updated
`user_info`, the reports store after the turn, the response body, and the
reified effects. -/
structure HandleResult where
  userInfo : UserInfo
  reports : List Report
  response : ChatResponse
  effects : Effects
deriving DecidableEq

/-- A demographic-turn result: state updated, fixed prompt, no report. -/
def demographicResult (u : UserInfo) (reports : List Report) (answer : String)
    (scaffold : Bool) : HandleResult :=
  { userInfo := u, reports := reports,
    response := { answer := answer, symptoms := none, prediction := none,
                  confidence := none, report := none },
    effects := { noEffects with scaffoldCreated := scaffold } }

/-- `_handle_chat_message` from `chatbot.py`: fill the next unset
demographic slot (creating the report scaffold on the gender turn), then
route the message through extraction; an empty extraction short-circuits
with the elaborate reply; otherwise run both predictor adapters,
reconcile, build and persist the report, and compose the reply. -/
def handleChatMessage (env : Env) (reports : List Report) (u : UserInfo)
    (userText : String) : HandleResult :=
  if falsy u.name then
    demographicResult { u with name := some (strStrip userText) } reports promptAge false
  else if falsy u.age then
    demographicResult { u with age := some (strStrip userText) } reports promptGender false
  else if falsy u.gender then
    demographicResult { u with gender := some (strStrip userText) } reports promptSymptoms true
  else
    let symptoms := extractFor env userText
    if symptoms = [] then
      { userInfo := u, reports := reports,
        response := { answer := elaborateReply, symptoms := none, prediction := none,
                      confidence := none, report := none },
        effects := { noEffects with extractionInvoked := true } }
    else
      let mlInputText := joinWith ", " symptoms
      let mlPredValue := env.mlPredict mlInputText
      let cnnResult := runCnnPrediction env.cnnModel env.advVocab env.diseaseMapping symptoms
      let predictions := predictionsBlock mlPredValue cnnResult
      let report : Report :=
        { report_id := env.reportId, timestamp := env.timestamp,
          patientName := (u.name).getD "Unknown",
          patientAge := (u.age).getD "N/A",
          patientGender := (u.gender).getD "N/A",
          symptoms := symptoms, predictions := predictions,
          recommended_doctors := RECOMMENDED_DOCTORS, notes := reportDisclaimer }
      let finalReply := joinWith " " (replyParts mlPredValue cnnResult)
      { userInfo := u,
        reports := reports ++ [report],
        response := { answer := finalReply, symptoms := some symptoms,
                      prediction := primaryPrediction mlPredValue cnnResult,
                      confidence := cnnResult.map (fun r => r.confidence),
                      report := some report },
        effects := { scaffoldCreated := false, extractionInvoked := true,
                     predictorsInvoked := true, reportAppended := true,
                     reportsSaved := true } }

/-- The state transition of one inbound message (the reports store does
not influence the next `user_info`). -/
def stepUser (env : Env) (u : UserInfo) (userText : String) : UserInfo :=
  (handleChatMessage env [] u userText).userInfo

/-- Process a sequence of inbound messages from process start. -/
def runMessages (env : Env) (msgs : List String) : UserInfo :=
  msgs.foldl (stepUser env) emptyUserInfo

/-- The implicit conversation state of the slot-filler: 0 = AwaitingName,
1 = AwaitingAge, 2 = AwaitingGender, 3 = AwaitingSymptoms. -/
def stateRank (u : UserInfo) : Nat :=
  if falsy u.name then 0
  else if falsy u.age then 1
  else if falsy u.gender then 2
  else 3

/-- A concrete degraded environment: no rich NLP, no CNN, classical model
always failing.  Used for closed instances. -/
def env0 : Env :=
  { advExtract := none, advVocab := none, mlPredict := fun _ => none,
    cnnModel := none, diseaseMapping := none, reportId := "rep_00000000",
    timestamp := "1970-01-01T00:00:00" }

/-! ## Lemmas about the one-hot vectorization -/

theorem getD_eq_getElem_of_lt (l : List String) (i : Nat) (h : i < l.length) :
    l.getD i "" = l[i] := by
  simp [List.getD_eq_getElem?_getD, List.getElem?_eq_getElem h]

theorem indexMapGet_some {vocab : List String} {s : String} :
    ∀ {j : Nat}, indexMapGet vocab s = some j → j < vocab.length ∧ vocab.getD j "" = s := by
  induction vocab with
  | nil => intro j h; simp [indexMapGet] at h
  | cons v vs ih =>
    intro j h
    unfold indexMapGet at h
    cases hrec : indexMapGet vs s with
    | some j0 =>
      rw [hrec] at h
      injection h with h
      obtain ⟨h1, h2⟩ := ih hrec
      subst h
      exact ⟨by simpa using Nat.succ_lt_succ h1, by simpa using h2⟩
    | none =>
      rw [hrec] at h
      by_cases hv : v = s
      · simp only [hv, if_pos rfl] at h
        injection h with h
        subst h
        simp [hv]
      · simp [hv] at h

theorem indexMapGet_none {vocab : List String} {s : String}
    (h : indexMapGet vocab s = none) : s ∉ vocab := by
  induction vocab with
  | nil => simp
  | cons v vs ih =>
    unfold indexMapGet at h
    cases hrec : indexMapGet vs s with
    | some j0 => rw [hrec] at h; exact absurd h (by simp)
    | none =>
      rw [hrec] at h
      by_cases hv : v = s
      · simp [hv] at h
      · intro hs
        rcases List.mem_cons.mp hs with h1 | h2
        · exact hv h1.symm
        · exact ih hrec h2

/-- The step function of `buildVec`'s fold. -/
def buildVecStep (vocab : List String) (vec : List ℚ) (s : String) : List ℚ :=
  match indexMapGet vocab s with
  | some idx => vec.set idx 1
  | none => vec

theorem buildVec_eq_foldl (vocab extracted : List String) :
    buildVec vocab extracted
      = extracted.foldl (buildVecStep vocab) (List.replicate vocab.length 0) := rfl

theorem buildVec_foldl_invariant (vocab : List String) (hnd : vocab.Nodup) :
    ∀ (es : List String) (v : List ℚ), v.length = vocab.length →
      (es.foldl (buildVecStep vocab) v).length = vocab.length
      ∧ ∀ i, i < vocab.length →
          (es.foldl (buildVecStep vocab) v).getD i 0
            = if vocab.getD i "" ∈ es then 1 else v.getD i 0 := by
  intro es
  induction es with
  | nil =>
    intro v hv
    refine ⟨hv, ?_⟩
    intro i _
    simp
  | cons s es ih =>
    intro v hv
    have hv' : (buildVecStep vocab v s).length = vocab.length := by
      unfold buildVecStep
      cases indexMapGet vocab s <;> simp [hv]
    obtain ⟨ihlen, ihget⟩ := ih (buildVecStep vocab v s) hv'
    refine ⟨by simpa [List.foldl_cons] using ihlen, ?_⟩
    intro i hi
    rw [List.foldl_cons, ihget i hi]
    by_cases hmem : vocab.getD i "" ∈ es
    · rw [if_pos hmem, if_pos (List.mem_cons_of_mem s hmem)]
    · have hcons : (vocab.getD i "" ∈ s :: es) ↔ vocab.getD i "" = s := by
        constructor
        · intro hc
          rcases List.mem_cons.mp hc with h1 | h1
          · exact h1
          · exact absurd h1 hmem
        · intro h1
          exact h1 ▸ List.mem_cons_self s es
      rw [if_neg hmem]
      cases hidx : indexMapGet vocab s with
      | some j =>
        obtain ⟨hj, hvj⟩ := indexMapGet_some hidx
        simp only [buildVecStep, hidx]
        by_cases hij : i = j
        · subst hij
          have hset : (v.set i 1).getD i 0 = 1 := by
            rw [List.getD_eq_getElem?_getD,
              List.getElem?_set_self (show i < v.length by omega)]
            rfl
          rw [hset, if_pos (hcons.mpr hvj)]
        · have hset : (v.set j 1).getD i 0 = v.getD i 0 := by
            rw [List.getD_eq_getElem?_getD, List.getElem?_set_ne (Ne.symm hij),
              ← List.getD_eq_getElem?_getD]
          rw [hset, if_neg ?_]
          intro hc
          have heq : vocab.getD i "" = s := hcons.mp hc
          have hgg : vocab[i] = vocab[j] := by
            rw [← getD_eq_getElem_of_lt vocab i hi, ← getD_eq_getElem_of_lt vocab j hj,
              heq, hvj]
          exact hij ((hnd.getElem_inj_iff).mp hgg)
      | none =>
        simp only [buildVecStep, hidx]
        rw [if_neg ?_]
        intro hc
        have heq : vocab.getD i "" = s := hcons.mp hc
        have hs : s ∈ vocab := by
          rw [← heq, getD_eq_getElem_of_lt vocab i hi]
          exact List.getElem_mem hi
        exact indexMapGet_none hidx hs

/-- C2 — the one-hot vector built for the sequence model has the
vocabulary's length, holds `1.0` exactly at the indices of the extracted
symptoms (entries outside the vocabulary being silently ignored) and
`0.0` elsewhere; an empty extracted set or a missing rich vocabulary
yields `Unavailable` (`none`, never a zero vector), and in those cases
the adapter answers `none` for every model oracle, i.e. without invoking
the model. -/
theorem cnn_vectorization_spec (vocab extracted : List String)
    (hnd : vocab.Nodup) (hne : extracted ≠ []) :
    (∃ vec, vectorizeSymptomsForCnn (some vocab) extracted = some vec
      ∧ vec.length = vocab.length
      ∧ ∀ i, i < vocab.length →
          vec.getD i 0 = if vocab.getD i "" ∈ extracted then 1 else 0)
    ∧ (∀ va, vectorizeSymptomsForCnn va [] = none)
    ∧ (∀ es, vectorizeSymptomsForCnn none es = none)
    ∧ (∀ model mapping va, runCnnPrediction (some model) va mapping [] = none)
    ∧ (∀ model mapping es, runCnnPrediction (some model) none mapping es = none) := by
  refine ⟨?_, ?_, ?_, ?_, ?_⟩
  · refine ⟨buildVec vocab extracted, ?_, ?_, ?_⟩
    · simp [vectorizeSymptomsForCnn, hne]
    · rw [buildVec_eq_foldl]
      exact (buildVec_foldl_invariant vocab hnd extracted _ (by simp)).1
    · intro i hi
      rw [buildVec_eq_foldl,
        (buildVec_foldl_invariant vocab hnd extracted _ (by simp)).2 i hi]
      have hrep : (List.replicate vocab.length (0 : ℚ)).getD i 0 = 0 := by
        simp [List.getD_eq_getElem?_getD, List.getElem?_replicate]
        split <;> rfl
      rw [hrep]
  · intro va; rfl
  · intro es
    unfold vectorizeSymptomsForCnn
    split
    · rfl
    · rfl
  · intro model mapping va; rfl
  · intro model mapping es
    unfold runCnnPrediction
    split
    · rfl
    · have hvec : vectorizeSymptomsForCnn none es = none := by
        unfold vectorizeSymptomsForCnn
        split <;> rfl
      simp [hvec]

/-- Witness for C2 at a concrete vocabulary and extraction. -/
theorem cnn_vectorization_spec_witness :
    (∃ vec, vectorizeSymptomsForCnn (some ["fever", "cough"]) ["cough"] = some vec
      ∧ vec.length = (["fever", "cough"] : List String).length
      ∧ ∀ i, i < (["fever", "cough"] : List String).length →
          vec.getD i 0 = if (["fever", "cough"] : List String).getD i "" ∈ (["cough"] : List String) then 1 else 0)
    ∧ (∀ va, vectorizeSymptomsForCnn va [] = none)
    ∧ (∀ es, vectorizeSymptomsForCnn none es = none)
    ∧ (∀ model mapping va, runCnnPrediction (some model) va mapping [] = none)
    ∧ (∀ model mapping es, runCnnPrediction (some model) none mapping es = none) :=
  cnn_vectorization_spec ["fever", "cough"] ["cough"] (by decide) (by decide)

/-! ## Reconciliation theorems -/

/-- C1 — reconciliation builds the predictions map by inserting the
stringified classical label at `100.0` when the classical adapter
produced a value, then the sequence adapter's resolved disease label (or
the `Class {index} (CNN)` placeholder) at `round(confidence*100, 1)`
when the sequence adapter produced a value (characterized case by case,
the distinct-label case; the colliding-label case is the overwrite
theorem); and `primary` is the sequence label when it resolved to a
truthy human name, else the stringified classical label when present,
else none. -/
theorem reconciliation_map_and_primary :
    (predictionsBlock none none = [])
    ∧ (∀ l, predictionsBlock (some l) none = [(l, 100)])
    ∧ (∀ r, predictionsBlock none (some r)
        = [(cnnDiseaseLabel r, pyRound1 (r.confidence * 100))])
    ∧ (∀ l r, cnnDiseaseLabel r ≠ l →
        predictionsBlock (some l) (some r)
          = [(l, 100), (cnnDiseaseLabel r, pyRound1 (r.confidence * 100))])
    ∧ (∀ ml r d, r.disease = some d → d ≠ "" →
        primaryPrediction ml (some r) = some d)
    ∧ (∀ ml r, r.disease = none ∨ r.disease = some "" →
        primaryPrediction ml (some r) = ml)
    ∧ (∀ ml, primaryPrediction ml none = ml) := by
  refine ⟨rfl, fun l => rfl, fun r => rfl, ?_, ?_, ?_, fun ml => rfl⟩
  · intro l r h
    simp only [predictionsBlock, dictInsert, List.any_cons, List.any_nil,
      Bool.or_false, decide_eq_true_eq]
    rw [if_neg (by simpa using fun he => h he.symm)]
    rfl
  · intro ml r d hd hne
    simp [primaryPrediction, hd, hne]
  · intro ml r hd
    rcases hd with hd | hd <;> simp [primaryPrediction, hd]

/-- Witness for C1: distinct labels append in order, and an unresolved
sequence label falls back to the classical label for `primary`. -/
theorem reconciliation_map_and_primary_witness :
    predictionsBlock (some "flu") (some { class_index := 0, confidence := 1, disease := none })
      = [("flu", 100),
         (cnnDiseaseLabel { class_index := 0, confidence := 1, disease := none },
          pyRound1 ((1 : ℚ) * 100))] :=
  reconciliation_map_and_primary.2.2.2.1 "flu"
    { class_index := 0, confidence := 1, disease := none } (by decide)

/-- C10 — when the stringified classical label coincides with the
sequence adapter's resolved label, the second insertion overwrites the
first in place: the reconciled map has exactly one entry, carrying the
sequence confidence percentage, hence fewer entries than the number of
adapters that produced values. -/
theorem duplicate_label_overwrite (l : String) (r : CnnResult)
    (h : cnnDiseaseLabel r = l) :
    predictionsBlock (some l) (some r) = [(l, pyRound1 (r.confidence * 100))]
    ∧ (predictionsBlock (some l) (some r)).length = 1 := by
  constructor
  · simp [predictionsBlock, dictInsert, h]
  · simp [predictionsBlock, dictInsert, h]

/-- Witness for C10 at a colliding concrete label. -/
theorem duplicate_label_overwrite_witness :
    predictionsBlock (some "Class 0 (CNN)")
        (some { class_index := 0, confidence := 1, disease := none })
      = [("Class 0 (CNN)",
          pyRound1 (CnnResult.confidence { class_index := 0, confidence := 1, disease := none } * 100))]
    ∧ (predictionsBlock (some "Class 0 (CNN)")
        (some { class_index := 0, confidence := 1, disease := none })).length = 1 :=
  duplicate_label_overwrite "Class 0 (CNN)"
    { class_index := 0, confidence := 1, disease := none } (by decide)

/-! ## Handler theorems -/

/-- C6 — after demographics are complete, a turn whose extraction is
empty short-circuits: the please-elaborate reply is returned, neither
predictor adapter is invoked, no report is created, appended or
persisted, and the conversation state is unchanged. -/
theorem empty_extraction_short_circuit (env : Env) (reports : List Report)
    (u : UserInfo) (text : String)
    (hname : falsy u.name = false) (hage : falsy u.age = false)
    (hgender : falsy u.gender = false)
    (hempty : extractFor env text = []) :
    handleChatMessage env reports u text =
      { userInfo := u, reports := reports,
        response := { answer := elaborateReply, symptoms := none, prediction := none,
                      confidence := none, report := none },
        effects := { scaffoldCreated := false, extractionInvoked := true,
                     predictorsInvoked := false, reportAppended := false,
                     reportsSaved := false } } := by
  simp [handleChatMessage, hname, hage, hgender, hempty, noEffects]

/-- Witness for C6: degraded environment, completed demographics, input
`"..."` (no common symptom, no nonempty comma/period fragment). -/
theorem empty_extraction_short_circuit_witness :
    handleChatMessage env0 [] { name := some "Alice", age := some "29", gender := some "female" } "..."
      = { userInfo := { name := some "Alice", age := some "29", gender := some "female" },
          reports := [],
          response := { answer := elaborateReply, symptoms := none, prediction := none,
                        confidence := none, report := none },
          effects := { scaffoldCreated := false, extractionInvoked := true,
                       predictorsInvoked := false, reportAppended := false,
                       reportsSaved := false } } :=
  empty_extraction_short_circuit env0 []
    { name := some "Alice", age := some "29", gender := some "female" } "..."
    (by decide) (by decide) (by decide) (by decide)

/-- C5 — when both predictor adapters are unavailable on a
symptom-bearing turn, the handler still completes: the predictions map
is empty, `primary` and the confidence are none, the reply is exactly
the no-reliable-prediction clause, and a report is still created,
appended to the reports store and returned in the response. -/
theorem unavailable_adapters_still_report (env : Env) (reports : List Report)
    (u : UserInfo) (text : String)
    (hname : falsy u.name = false) (hage : falsy u.age = false)
    (hgender : falsy u.gender = false)
    (hsym : extractFor env text ≠ [])
    (hml : env.mlPredict (joinWith ", " (extractFor env text)) = none)
    (hcnn : runCnnPrediction env.cnnModel env.advVocab env.diseaseMapping
        (extractFor env text) = none) :
    ∃ rep : Report,
      handleChatMessage env reports u text =
        { userInfo := u, reports := reports ++ [rep],
          response :=
            { answer := "I recorded your symptoms, but the classical ML model could not produce a reliable prediction for this description.",
              symptoms := some (extractFor env text), prediction := none,
              confidence := none, report := some rep },
          effects := { scaffoldCreated := false, extractionInvoked := true,
                       predictorsInvoked := true, reportAppended := true,
                       reportsSaved := true } }
      ∧ rep.predictions = [] := by
  refine ⟨{ report_id := env.reportId, timestamp := env.timestamp,
            patientName := (u.name).getD "Unknown",
            patientAge := (u.age).getD "N/A",
            patientGender := (u.gender).getD "N/A",
            symptoms := extractFor env text, predictions := [],
            recommended_doctors := RECOMMENDED_DOCTORS, notes := reportDisclaimer },
          ?_, rfl⟩
  simp [handleChatMessage, hname, hage, hgender, hsym, hml, hcnn,
    predictionsBlock, primaryPrediction, replyParts, joinWith]

/-- Witness for C5: degraded environment (no CNN model, classical model
raising), fallback extraction of `"fever"`. -/
theorem unavailable_adapters_still_report_witness :
    ∃ rep : Report,
      handleChatMessage env0 [] { name := some "Alice", age := some "29", gender := some "female" } "fever"
        = { userInfo := { name := some "Alice", age := some "29", gender := some "female" },
            reports := [] ++ [rep],
            response :=
              { answer := "I recorded your symptoms, but the classical ML model could not produce a reliable prediction for this description.",
                symptoms := some (extractFor env0 "fever"), prediction := none,
                confidence := none, report := some rep },
            effects := { scaffoldCreated := false, extractionInvoked := true,
                         predictorsInvoked := true, reportAppended := true,
                         reportsSaved := true } }
      ∧ rep.predictions = [] :=
  unavailable_adapters_still_report env0 []
    { name := some "Alice", age := some "29", gender := some "female" } "fever"
    (by decide) (by decide) (by decide) (by decide) rfl rfl

/-- C8 — the concrete demographic trace: "Alice", "29", "female" fill
name, age, gender in that order (each stored trimmed, each turn
returning the fixed prompt for the next field), the gender-setting third
message creates the patient-report scaffold, and the fourth message is
the first one routed to symptom extraction. -/
theorem demographic_trace_spec (env : Env) (reports : List Report) :
    let r1 := handleChatMessage env reports emptyUserInfo "Alice"
    let r2 := handleChatMessage env r1.reports r1.userInfo "29"
    let r3 := handleChatMessage env r2.reports r2.userInfo "female"
    let r4 := handleChatMessage env r3.reports r3.userInfo "I have fever and cough"
    r1.userInfo = { name := some "Alice", age := none, gender := none }
    ∧ r1.response.answer = promptAge
    ∧ r1.effects = noEffects
    ∧ r2.userInfo = { name := some "Alice", age := some "29", gender := none }
    ∧ r2.response.answer = promptGender
    ∧ r2.effects = noEffects
    ∧ r3.userInfo = { name := some "Alice", age := some "29", gender := some "female" }
    ∧ r3.response.answer = promptSymptoms
    ∧ r3.effects = { noEffects with scaffoldCreated := true }
    ∧ r4.effects.extractionInvoked = true := by
  intro r1 r2 r3 r4
  refine ⟨rfl, rfl, rfl, rfl, rfl, rfl, rfl, rfl, rfl, ?_⟩
  show (handleChatMessage env r3.reports r3.userInfo "I have fever and cough").effects.extractionInvoked = true
  have h3 : r3.userInfo = { name := some "Alice", age := some "29", gender := some "female" } := rfl
  rw [h3]
  by_cases hc : extractFor env "I have fever and cough" = [] <;>
    simp [handleChatMessage, hc, falsy, noEffects]

/-! ## State machine lemmas -/

/-- The reachable states of the slot-filler have their fields set in
order: a truthy later field implies a truthy earlier field. -/
def orderedUI (u : UserInfo) : Prop :=
  (falsy u.age = false → falsy u.name = false)
  ∧ (falsy u.gender = false → falsy u.age = false)

theorem stateRank_le_three (u : UserInfo) : stateRank u ≤ 3 := by
  unfold stateRank
  split
  · omega
  · split
    · omega
    · split <;> omega

theorem stepUser_name_turn (env : Env) (u : UserInfo) (m : String)
    (h : falsy u.name = true) :
    stepUser env u m = { u with name := some (strStrip m) } := by
  unfold stepUser handleChatMessage
  rw [h]
  rfl

theorem stepUser_age_turn (env : Env) (u : UserInfo) (m : String)
    (h1 : falsy u.name = false) (h2 : falsy u.age = true) :
    stepUser env u m = { u with age := some (strStrip m) } := by
  unfold stepUser handleChatMessage
  rw [h1, h2]
  rfl

theorem stepUser_gender_turn (env : Env) (u : UserInfo) (m : String)
    (h1 : falsy u.name = false) (h2 : falsy u.age = false)
    (h3 : falsy u.gender = true) :
    stepUser env u m = { u with gender := some (strStrip m) } := by
  unfold stepUser handleChatMessage
  rw [h1, h2, h3]
  rfl

theorem step_fixed_after_demographics (env : Env) (u : UserInfo) (m : String)
    (hname : falsy u.name = false) (hage : falsy u.age = false)
    (hgender : falsy u.gender = false) :
    stepUser env u m = u := by
  unfold stepUser handleChatMessage
  rw [hname, hage, hgender]
  simp only [Bool.false_eq_true, if_false]
  split <;> rfl

theorem stateRank_zero {u : UserInfo} (h : falsy u.name = true) : stateRank u = 0 := by
  unfold stateRank
  rw [h]
  rfl

theorem stateRank_one {u : UserInfo} (h1 : falsy u.name = false)
    (h2 : falsy u.age = true) : stateRank u = 1 := by
  unfold stateRank
  rw [h1, h2]
  rfl

theorem stateRank_two {u : UserInfo} (h1 : falsy u.name = false)
    (h2 : falsy u.age = false) (h3 : falsy u.gender = true) : stateRank u = 2 := by
  unfold stateRank
  rw [h1, h2, h3]
  rfl

theorem stateRank_three {u : UserInfo} (h1 : falsy u.name = false)
    (h2 : falsy u.age = false) (h3 : falsy u.gender = false) : stateRank u = 3 := by
  unfold stateRank
  rw [h1, h2, h3]
  rfl

theorem step_preserves_name (env : Env) (u : UserInfo) (m : String)
    (h : falsy u.name = false) : (stepUser env u m).name = u.name := by
  cases hage : falsy u.age
  · cases hgender : falsy u.gender
    · rw [step_fixed_after_demographics env u m h hage hgender]
    · rw [stepUser_gender_turn env u m h hage hgender]
  · rw [stepUser_age_turn env u m h hage]

theorem step_preserves_age (env : Env) (u : UserInfo) (m : String)
    (h : falsy u.age = false) : (stepUser env u m).age = u.age := by
  cases hname : falsy u.name
  · cases hgender : falsy u.gender
    · rw [step_fixed_after_demographics env u m hname h hgender]
    · rw [stepUser_gender_turn env u m hname h hgender]
  · rw [stepUser_name_turn env u m hname]

theorem step_preserves_gender (env : Env) (u : UserInfo) (m : String)
    (h : falsy u.gender = false) : (stepUser env u m).gender = u.gender := by
  cases hname : falsy u.name
  · cases hage : falsy u.age
    · rw [step_fixed_after_demographics env u m hname hage h]
    · rw [stepUser_age_turn env u m hname hage]
  · rw [stepUser_name_turn env u m hname]

theorem step_rank (env : Env) (u : UserInfo) (m : String)
    (hord : orderedUI u) (hm : strStrip m ≠ "") :
    stateRank (stepUser env u m) = min (stateRank u + 1) 3 := by
  have hm' : falsy (some (strStrip m)) = false := by
    simp [falsy, hm]
  cases hname : falsy u.name
  · cases hage : falsy u.age
    · cases hgender : falsy u.gender
      · rw [step_fixed_after_demographics env u m hname hage hgender,
          stateRank_three hname hage hgender]
        omega
      · rw [stepUser_gender_turn env u m hname hage hgender,
          stateRank_two hname hage hgender,
          stateRank_three (u := { u with gender := some (strStrip m) }) hname hage hm']
        omega
    · have hgender : falsy u.gender = true := by
        cases hg : falsy u.gender
        · exact absurd (hord.2 hg) (by simp [hage])
        · rfl
      rw [stepUser_age_turn env u m hname hage,
        stateRank_one hname hage,
        stateRank_two (u := { u with age := some (strStrip m) }) hname hm' hgender]
      omega
  · have hage : falsy u.age = true := by
      cases ha : falsy u.age
      · exact absurd (hord.1 ha) (by simp [hname])
      · rfl
    rw [stepUser_name_turn env u m hname,
      stateRank_zero hname,
      stateRank_one (u := { u with name := some (strStrip m) }) hm' hage]
    omega

theorem step_ordered (env : Env) (u : UserInfo) (m : String)
    (hord : orderedUI u) : orderedUI (stepUser env u m) := by
  cases hname : falsy u.name
  · cases hage : falsy u.age
    · cases hgender : falsy u.gender
      · rw [step_fixed_after_demographics env u m hname hage hgender]
        exact hord
      · rw [stepUser_gender_turn env u m hname hage hgender]
        exact ⟨fun _ => hname, fun _ => hage⟩
    · rw [stepUser_age_turn env u m hname hage]
      have hgender : falsy u.gender = true := by
        cases hg : falsy u.gender
        · exact absurd (hord.2 hg) (by simp [hage])
        · rfl
      exact ⟨fun _ => hname, fun hg => absurd hg (by simp [hgender])⟩
  · rw [stepUser_name_turn env u m hname]
    have hage : falsy u.age = true := by
      cases ha : falsy u.age
      · exact absurd (hord.1 ha) (by simp [hname])
      · rfl
    have hgender : falsy u.gender = true := by
      cases hg : falsy u.gender
      · exact absurd (hord.1 (hord.2 hg)) (by simp [hname])
      · rfl
    exact ⟨fun ha => absurd ha (by simp [hage]), fun hg => absurd hg (by simp [hgender])⟩

theorem rank_foldl (env : Env) :
    ∀ (msgs : List String) (u : UserInfo), orderedUI u →
      (∀ m ∈ msgs, strStrip m ≠ "") →
      stateRank (msgs.foldl (stepUser env) u) = min (stateRank u + msgs.length) 3 := by
  intro msgs
  induction msgs with
  | nil =>
    intro u _ _
    have := stateRank_le_three u
    simp only [List.foldl_nil, List.length_nil, Nat.add_zero]
    omega
  | cons m ms ih =>
    intro u hord hmsgs
    rw [List.foldl_cons,
      ih (stepUser env u m) (step_ordered env u m hord)
        (fun x hx => hmsgs x (List.mem_cons_of_mem m hx)),
      step_rank env u m hord (hmsgs m (List.mem_cons_self m ms))]
    have := stateRank_le_three u
    simp only [List.length_cons]
    omega

/-- Counterexample to C7 as stated: the first inbound message `""` sets
the name field (to the empty string), the machine stays in
`AwaitingName` (rank 0), and the next message sets the name field
again. -/
theorem state_machine_revisit_counterexample :
    (stepUser env0 emptyUserInfo "").name = some ""
    ∧ stateRank (stepUser env0 emptyUserInfo "") = 0
    ∧ (stepUser env0 (stepUser env0 emptyUserInfo "") "Bob").name = some "Bob" := by
  exact ⟨rfl, rfl, rfl⟩

/-- C7 (amended) — a field that is set to a truthy (nonempty) string is
never set again by any later message, and for every sequence of inbound
messages whose trimmed text is nonempty the machine walks
`AwaitingName → AwaitingAge → AwaitingGender → AwaitingSymptoms`
monotonically from process start, entering each state at most once
(rank after `k` messages is exactly `min k 3`). -/
theorem state_machine_monotone_nonblank :
    (∀ env u m, falsy u.name = false → (stepUser env u m).name = u.name)
    ∧ (∀ env u m, falsy u.age = false → (stepUser env u m).age = u.age)
    ∧ (∀ env u m, falsy u.gender = false → (stepUser env u m).gender = u.gender)
    ∧ (∀ env msgs, (∀ m ∈ msgs, strStrip m ≠ "") →
        stateRank (runMessages env msgs) = min msgs.length 3) := by
  refine ⟨step_preserves_name, step_preserves_age, step_preserves_gender, ?_⟩
  intro env msgs hmsgs
  have hord : orderedUI emptyUserInfo := by
    refine ⟨fun h => ?_, fun h => ?_⟩ <;> simp [emptyUserInfo, falsy] at h
  have h := rank_foldl env msgs emptyUserInfo hord hmsgs
  simpa [runMessages, stateRank, emptyUserInfo, falsy] using h

/-- Witness for the amended C7 on a concrete nonblank message sequence. -/
theorem state_machine_monotone_nonblank_witness :
    stateRank (runMessages env0 ["Alice", "29"]) = min (["Alice", "29"] : List String).length 3 :=
  state_machine_monotone_nonblank.2.2.2 env0 ["Alice", "29"] (by decide)

/-! ## Fallback extractor theorems -/

theorem mem_insertSorted {x s : String} : ∀ {l : List String},
    x ∈ insertSorted s l ↔ x = s ∨ x ∈ l := by
  intro l
  induction l with
  | nil => simp [insertSorted]
  | cons t ts ih =>
    unfold insertSorted
    cases hc : strLe s t
    · simp only [Bool.false_eq_true, if_false, List.mem_cons, ih]
      tauto
    · simp only [if_true, List.mem_cons]

theorem mem_sortStrings {x : String} : ∀ {l : List String},
    x ∈ sortStrings l ↔ x ∈ l := by
  intro l
  induction l with
  | nil => simp [sortStrings]
  | cons s ss ih => simp [sortStrings, mem_insertSorted, ih, List.mem_cons]

/-- C3 — the fallback extractor returns exactly the common-symptom
entries occurring as substrings of the lowercased, space-padded input;
when none occurs it splits the raw input on commas and periods, trims,
drops empties and keeps at most the first 3 fragments; and on
`"I have a fever and a bad cough."` it returns exactly
`{"fever", "cough"}` (sorted output `["cough", "fever"]`). -/
theorem fallback_extractor_spec :
    (∀ text s, s ∈ COMMON_SYMPTOMS →
        strContainsSub (" " ++ strLower text ++ " ") s = true →
        s ∈ parseSymptomsFromText text)
    ∧ (∀ text s,
        (∃ x ∈ COMMON_SYMPTOMS, strContainsSub (" " ++ strLower text ++ " ") x = true) →
        s ∈ parseSymptomsFromText text →
        s ∈ COMMON_SYMPTOMS ∧ strContainsSub (" " ++ strLower text ++ " ") s = true)
    ∧ (∀ text,
        (∀ x ∈ COMMON_SYMPTOMS, strContainsSub (" " ++ strLower text ++ " ") x = false) →
        parseSymptomsFromText text
          = (((splitCommaPeriod text).map strStrip).filter (fun chunk => chunk ≠ "")).take 3)
    ∧ parseSymptomsFromText "I have a fever and a bad cough." = ["cough", "fever"] := by
  refine ⟨?_, ?_, ?_, by decide⟩
  · intro text s hs hocc
    have hmem : s ∈ COMMON_SYMPTOMS.filter
        (fun symptom => strContainsSub (" " ++ strLower text ++ " ") symptom) :=
      List.mem_filter.mpr ⟨hs, hocc⟩
    have hne : COMMON_SYMPTOMS.filter
        (fun symptom => strContainsSub (" " ++ strLower text ++ " ") symptom) ≠ [] := by
      intro h
      rw [h] at hmem
      exact absurd hmem (List.not_mem_nil s)
    unfold parseSymptomsFromText
    dsimp only
    rw [if_pos hne]
    exact mem_sortStrings.mpr hmem
  · intro text s hex hmem
    obtain ⟨x, hx, hoccx⟩ := hex
    have hxmem : x ∈ COMMON_SYMPTOMS.filter
        (fun symptom => strContainsSub (" " ++ strLower text ++ " ") symptom) :=
      List.mem_filter.mpr ⟨hx, hoccx⟩
    have hne : COMMON_SYMPTOMS.filter
        (fun symptom => strContainsSub (" " ++ strLower text ++ " ") symptom) ≠ [] := by
      intro h
      rw [h] at hxmem
      exact absurd hxmem (List.not_mem_nil x)
    unfold parseSymptomsFromText at hmem
    dsimp only at hmem
    rw [if_pos hne] at hmem
    exact List.mem_filter.mp (mem_sortStrings.mp hmem)
  · intro text hall
    have hfound : COMMON_SYMPTOMS.filter
        (fun symptom => strContainsSub (" " ++ strLower text ++ " ") symptom) = [] := by
      rw [List.eq_nil_iff_forall_not_mem]
      intro a ha
      obtain ⟨h1, h2⟩ := List.mem_filter.mp ha
      rw [hall a h1] at h2
      exact absurd h2 (by simp)
    unfold parseSymptomsFromText
    dsimp only
    rw [if_neg (fun h => h hfound)]

/-- Witness for C3: `"fever"` is found in the concrete sentence. -/
theorem fallback_extractor_spec_witness :
    "fever" ∈ parseSymptomsFromText "I have a fever and a bad cough." :=
  fallback_extractor_spec.1 "I have a fever and a bad cough." "fever" (by decide) (by decide)

/-! ## Rich extractor theorems -/

theorem extractLoop_ok (L : String → Finset String) (threshold : ℚ)
    (sentenceLemmas : Finset String) :
    ∀ (vocab found : List String),
      (∀ s ∈ vocab, (symptomLemmas L s).card ≠ 0) →
      extractLoop L threshold sentenceLemmas found vocab
        = Except.ok (found ++ vocab.filter
            (fun symp => symptomGateB L threshold sentenceLemmas symp)) := by
  intro vocab
  induction vocab with
  | nil =>
    intro found _
    simp [extractLoop]
  | cons v vs ih =>
    intro found hall
    have hv : (symptomLemmas L v).card ≠ 0 := hall v (List.mem_cons_self v vs)
    have hgate : symptomGate L threshold sentenceLemmas v
        = Except.ok (symptomGateB L threshold sentenceLemmas v) := by
      unfold symptomGate symptomGateB
      rw [if_neg hv]
    unfold extractLoop
    rw [hgate]
    dsimp only
    cases hb : symptomGateB L threshold sentenceLemmas v
    · rw [if_neg (by simp [hb]), ih _ (fun s hs => hall s (List.mem_cons_of_mem v hs))]
      simp [List.filter_cons, hb]
    · rw [if_pos (by simp [hb]), ih _ (fun s hs => hall s (List.mem_cons_of_mem v hs))]
      simp [List.filter_cons, hb]

/-- C4 — the rich extractor's result contains a vocabulary label iff the
overlap ratio between the input's lemma set and the label's lemma set is
at least the threshold `0.55` or the raw overlap count is at least 2;
every element of the result belongs to the vocabulary, and the result
has no duplicates.  (Stated under the premise that the external
lemmatizer gives every vocabulary label a nonempty lemma set, which is
what makes the ratio defined.) -/
theorem rich_extractor_membership_spec (L : String → Finset String)
    (vocab : List String) (sentence : String)
    (hnz : ∀ s ∈ vocab, (symptomLemmas L s).card ≠ 0) :
    ∃ res, extractSymptomsFromTextE L vocab (11 / 20) sentence = Except.ok res
      ∧ (∀ x, x ∈ res ↔ x ∈ vocab ∧
          ((((L (cleanText sentence) ∩ symptomLemmas L x).card : ℚ)
              / ((symptomLemmas L x).card : ℚ) ≥ 11 / 20)
           ∨ 2 ≤ (L (cleanText sentence) ∩ symptomLemmas L x).card))
      ∧ res.Nodup
      ∧ (∀ x ∈ res, x ∈ vocab) := by
  refine ⟨(vocab.filter
      (fun symp => symptomGateB L (11 / 20) (L (cleanText sentence)) symp)).dedup,
    ?_, ?_, List.nodup_dedup _, ?_⟩
  · unfold extractSymptomsFromTextE
    rw [extractLoop_ok L (11 / 20) (L (cleanText sentence)) vocab [] hnz]
    rfl
  · intro x
    rw [List.mem_dedup, List.mem_filter]
    unfold symptomGateB
    simp only [Bool.or_eq_true, decide_eq_true_eq, ge_iff_le]
  · intro x hx
    exact (List.mem_filter.mp (List.mem_dedup.mp hx)).1

/-- Witness for C4 at a concrete oracle, vocabulary and sentence. -/
theorem rich_extractor_membership_spec_witness :
    ∃ res, extractSymptomsFromTextE (fun _ => {"fever"}) ["fever"] (11 / 20) "fever"
        = Except.ok res
      ∧ (∀ x, x ∈ res ↔ x ∈ (["fever"] : List String) ∧
          (((((fun (_ : String) => ({"fever"} : Finset String)) (cleanText "fever")
                ∩ symptomLemmas (fun _ => {"fever"}) x).card : ℚ)
              / ((symptomLemmas (fun _ => {"fever"}) x).card : ℚ) ≥ 11 / 20)
           ∨ 2 ≤ ((fun (_ : String) => ({"fever"} : Finset String)) (cleanText "fever")
                ∩ symptomLemmas (fun _ => {"fever"}) x).card))
      ∧ res.Nodup
      ∧ (∀ x ∈ res, x ∈ (["fever"] : List String)) :=
  rich_extractor_membership_spec (fun _ => {"fever"}) ["fever"] "fever" (by decide)

/-- C9 — the symptom extractors terminate normally: the fallback variant
is a total function, and the rich variant returns a value (never an
exception) for every input sentence whenever the external lemmatizer
gives every vocabulary label a nonempty lemma set — that premise is
exactly the definedness of the per-label overlap-ratio computation,
which the gate also certifies label by label. -/
theorem extractors_never_raise (L : String → Finset String)
    (vocab : List String) (threshold : ℚ)
    (hnz : ∀ s ∈ vocab, (symptomLemmas L s).card ≠ 0) :
    (∀ sentence, ∃ res,
        extractSymptomsFromTextE L vocab threshold sentence = Except.ok res)
    ∧ (∀ sentence, ∀ s ∈ vocab,
        symptomGate L threshold (L (cleanText sentence)) s
          = Except.ok (symptomGateB L threshold (L (cleanText sentence)) s))
    ∧ (∀ text, ∃ res, parseSymptomsFromText text = res) := by
  refine ⟨?_, ?_, fun text => ⟨parseSymptomsFromText text, rfl⟩⟩
  · intro sentence
    refine ⟨(vocab.filter
        (fun symp => symptomGateB L threshold (L (cleanText sentence)) symp)).dedup, ?_⟩
    unfold extractSymptomsFromTextE
    rw [extractLoop_ok L threshold (L (cleanText sentence)) vocab [] hnz]
    rfl
  · intro sentence s hs
    unfold symptomGate symptomGateB
    rw [if_neg (hnz s hs)]

/-- Witness for C9 at a concrete oracle and vocabulary. -/
theorem extractors_never_raise_witness :
    (∀ sentence, ∃ res,
        extractSymptomsFromTextE (fun _ => {"fever"}) ["fever"] (11 / 20) sentence
          = Except.ok res)
    ∧ (∀ sentence, ∀ s ∈ (["fever"] : List String),
        symptomGate (fun _ => {"fever"}) (11 / 20)
            ((fun (_ : String) => ({"fever"} : Finset String)) (cleanText sentence)) s
          = Except.ok (symptomGateB (fun _ => {"fever"}) (11 / 20)
              ((fun (_ : String) => ({"fever"} : Finset String)) (cleanText sentence)) s))
    ∧ (∀ text, ∃ res, parseSymptomsFromText text = res) :=
  extractors_never_raise (fun _ => {"fever"}) ["fever"] (11 / 20) (by decide)

end Healix
